import Mathlib

/-!
Verification of the itinerary pricing / versioning / portal / finance core of
the travel-agency back office (`app/crud.py`, `app/utils.py`,
`app/api/routes/portal.py`, `app/api/routes/finance.py`).

Monetary amounts (SQL `Numeric(10,2)` / Python `Decimal`) are modelled as
rationals; `Decimal.quantize(Decimal("0.01"))` (default rounding
`ROUND_HALF_EVEN`) and Python `round(x, 2)` are modelled by `quantize2`,
rounding half to even at two decimal places.
-/

/-- Round a rational to the nearest integer, ties to even
(the rounding mode of `Decimal.quantize` and of Python `round`). -/
def roundHalfEven (q : ℚ) : ℤ :=
  if q - ⌊q⌋ < 1 / 2 then ⌊q⌋
  else if 1 / 2 < q - ⌊q⌋ then ⌊q⌋ + 1
  else if ⌊q⌋ % 2 = 0 then ⌊q⌋ else ⌊q⌋ + 1

/-- Embeds `x.quantize(Decimal("0.01"))`: round to two decimal places, half to even. -/
def quantize2 (q : ℚ) : ℚ := (roundHalfEven (q * 100) : ℚ) / 100

/-- An amount with at most two decimal places, as every amount stored in a
`Numeric(10, 2)` column is. -/
def TwoDec (q : ℚ) : Prop := ∃ n : ℤ, q = (n : ℚ) / 100

/-- Embeds Python `str.lower()`: lower-case every character. -/
def strLower (s : String) : String := ⟨s.data.map Char.toLower⟩

/-! ## Data model (`app/models.py`)

Structures carry the columns the verified operations read or write; surrogate
keys internal to the ORM (`id` of child rows, `itinerary_id` back references)
are dropped. Fields of nullable columns are `Option`-valued. -/

/-- A media link of an itinerary item (`models.ItineraryItemMedia`). -/
structure ItineraryItemMedia where
  media_asset_id : ℕ
  usage : Option String
deriving DecidableEq

/-- A day-numbered activity of an itinerary (`models.ItineraryItem`). -/
structure ItineraryItem where
  day_number : ℤ
  title : String
  description : Option String
  location : Option String
  start_time : Option String
  end_time : Option String
  category : String
  supplier_reference : Option String
  estimated_cost : Option ℚ
  estimated_currency : String
  media_links : List ItineraryItemMedia
deriving DecidableEq

/-- An optional add-on of an itinerary (`models.ItineraryExtension`). -/
structure ItineraryExtension where
  title : String
  description : Option String
  additional_cost : Option ℚ
  currency : String
deriving DecidableEq

/-- A categorized advisory note of an itinerary (`models.ItineraryNote`). -/
structure ItineraryNote where
  category : String
  title : Option String
  content : String
deriving DecidableEq

/-- Modelled from the spec: the `ItineraryVersion` row — an immutable snapshot
`{version_number, summary, snapshot}` scoped to one itinerary.  The class is
used by `crud.record_itinerary_version` but its declaration is missing from
this snapshot's `models.py`.  The JSON `snapshot` dict is modelled as an
association list. -/
structure ItineraryVersion where
  version_number : ℤ
  summary : String
  snapshot : List (String × Option String)
deriving DecidableEq

/-- An itinerary row (`models.Itinerary`), together with its owned collections.
The pricing columns `markup_strategy` (nullable, `flat`\|`percentage`),
`target_margin` (nullable numeric) and the derived `calculated_margin` are
modelled from the spec: `crud._apply_pricing_strategy` reads and writes them
but this snapshot's `models.py` does not declare them; likewise the `versions`
collection. -/
structure Itinerary where
  id : ℕ
  client_id : ℕ
  tour_package_id : Option ℕ
  title : String
  start_date : ℤ
  end_date : ℤ
  total_price : Option ℚ
  status : String
  estimate_amount : Option ℚ
  estimate_currency : String
  brand_logo_url : Option String
  brand_primary_color : Option String
  brand_secondary_color : Option String
  brand_footer_note : Option String
  markup_strategy : Option String
  target_margin : Option ℚ
  calculated_margin : Option ℚ
  items : List ItineraryItem
  extensions : List ItineraryExtension
  notes : List ItineraryNote
  versions : List ItineraryVersion
deriving DecidableEq

/-! ## Pricing engine (`crud._calculate_itinerary_cost`, `crud._apply_pricing_strategy`) -/

/-- One `for` loop of `_calculate_itinerary_cost`: add every non-null cost of
`costs` to the running total. -/
def addCosts (init : ℚ) (costs : List (Option ℚ)) : ℚ :=
  costs.foldl
    (fun total c =>
      match c with
      | some v => total + v
      | none => total)
    init

/-- Embeds `crud._calculate_itinerary_cost`: sum the non-null `estimated_cost` of the
items, then the non-null `additional_cost` of the extensions, starting from
`Decimal("0")`. -/
def calculate_itinerary_cost (it : Itinerary) : ℚ :=
  addCosts (addCosts 0 (it.items.map (·.estimated_cost))) (it.extensions.map (·.additional_cost))

/-- The `markup_value` computed by `crud._apply_pricing_strategy`:
`strategy = (markup_strategy or "flat").lower()`, `target = target_margin or 0`;
percentage strategy yields `(base_cost * target / 100).quantize("0.01")`,
otherwise `Decimal(target).quantize("0.01") if target else Decimal("0")`. -/
def markupValue (markup_strategy : Option String) (target_margin : Option ℚ) (base_cost : ℚ) : ℚ :=
  if strLower (markup_strategy.getD "flat") = "percentage" then
    quantize2 (base_cost * target_margin.getD 0 / 100)
  else if target_margin.getD 0 ≠ 0 then quantize2 (target_margin.getD 0)
  else 0

/-- The value `itinerary.total_price` holds after
`crud._apply_pricing_strategy` ran: it is overwritten with
`(base_cost + markup_value).quantize("0.01")` exactly when it was `None` or
below `base_cost`, so it is never `None` afterwards. -/
def newTotalPrice (it : Itinerary) : ℚ :=
  let base_cost := calculate_itinerary_cost it
  let markup_value := markupValue it.markup_strategy it.target_margin base_cost
  match it.total_price with
  | none => quantize2 (base_cost + markup_value)
  | some t => if t < base_cost then quantize2 (base_cost + markup_value) else t

/-- Embeds `crud._apply_pricing_strategy`: recompute `total_price` (floor rule),
derive `calculated_margin = (total_price - base_cost).quantize("0.01")`, and
default `estimate_amount` to `total_price` when unset. -/
def apply_pricing_strategy (it : Itinerary) : Itinerary :=
  { it with
    total_price := some (newTotalPrice it)
    calculated_margin := some (quantize2 (newTotalPrice it - calculate_itinerary_cost it))
    estimate_amount :=
      match it.estimate_amount with
      | none => some (newTotalPrice it)
      | some e => some e }

/-! ## Versioning recorder (`crud.record_itinerary_version`) -/

/-- Embeds the query of `crud.record_itinerary_version`: select the
`version_number` column of the itinerary's versions ordered descending and
take the first scalar — the maximum, `none` when no version exists. -/
def latestVersionNumber (vs : List ItineraryVersion) : Option ℤ :=
  (vs.map (·.version_number)).foldl
    (fun acc v =>
      match acc with
      | none => some v
      | some m => some (max m v))
    none

/-- Embeds `crud.record_itinerary_version`: insert a new snapshot row with
`version_number = (latest_number or 0) + 1` for the given itinerary.  Returns
the itinerary's version list with the new row appended. -/
def record_itinerary_version (vs : List ItineraryVersion) (summary : String)
    (snapshot : List (String × Option String)) : List ItineraryVersion :=
  vs ++ [{ version_number := (latestVersionNumber vs).getD 0 + 1
           summary := summary
           snapshot := snapshot }]

/-- The state of one itinerary's version history after `n` successive calls of
`record_itinerary_version` starting from no versions, with arbitrary summaries
and snapshots per call. -/
def iteratedVersions (summaries : ℕ → String) (snapshots : ℕ → List (String × Option String)) :
    ℕ → List ItineraryVersion
  | 0 => []
  | n + 1 => record_itinerary_version (iteratedVersions summaries snapshots n)
      (summaries n) (snapshots n)

/-! ## Portal workflow (`crud.create_portal_invitation`, `crud.get_portal_token`,
`crud.apply_portal_decision`, `api/routes/portal.py`) -/

/-- Modelled from the spec: the `PortalAccessToken` row — a capability token
binding one itinerary to one client with `expires_at`, `status`
(pending\|approved\|declined), `approved_at`, `approval_notes`,
`waiver_signed`, `last_viewed_at`.  The class is used throughout `crud.py` and
`api/routes/portal.py` but its declaration is missing from this snapshot's
`models.py`.  Instants are modelled as integers. -/
structure PortalAccessToken where
  itinerary_id : ℕ
  client_id : ℕ
  token : String
  expires_at : ℤ
  status : String
  approved_at : Option ℤ
  approval_notes : Option String
  waiver_signed : Bool
  last_viewed_at : Option ℤ
deriving DecidableEq

/-- Modelled from the spec: the request payload of a portal invitation
(`schemas.PortalInvitationRequest`), as read by `crud.create_portal_invitation`:
`itinerary_id`, `client_id`, `expires_in_days`. -/
structure PortalInvitationRequest where
  itinerary_id : ℕ
  client_id : ℕ
  expires_in_days : ℤ
deriving DecidableEq

/-- Embeds `crud.get_itinerary` (`session.get` by primary key) over the table
of itinerary rows. -/
def get_itinerary (itineraries : List Itinerary) (itinerary_id : ℕ) : Option Itinerary :=
  itineraries.find? (·.id == itinerary_id)

/-- Embeds `crud.create_portal_invitation`: fail with `ValueError` when the
itinerary id is unknown, the client id is unknown, or the client is not the
itinerary's own client; otherwise insert a fresh token row with status
`pending` expiring `expires_in_days` days from now.  `clients` is the table of
client primary keys, `tokenStr` the generated `secrets.token_urlsafe(24)`
value, `now` the current instant and `day` the length of one day.  Returns the
new row and the token table after the insert. -/
def create_portal_invitation (itineraries : List Itinerary) (clients : List ℕ)
    (tokens : List PortalAccessToken) (payload : PortalInvitationRequest)
    (tokenStr : String) (now day : ℤ) :
    Except String (PortalAccessToken × List PortalAccessToken) :=
  match get_itinerary itineraries payload.itinerary_id with
  | none => .error "Itinerary not found"
  | some itinerary =>
    if payload.client_id ∉ clients then .error "Client not found"
    else if itinerary.client_id ≠ payload.client_id then .error "Client must match itinerary client"
    else
      let portal_token : PortalAccessToken :=
        { itinerary_id := payload.itinerary_id
          client_id := payload.client_id
          token := tokenStr
          expires_at := now + payload.expires_in_days * day
          status := "pending"
          approved_at := none
          approval_notes := none
          waiver_signed := false
          last_viewed_at := none }
      .ok (portal_token, tokens ++ [portal_token])

/-- The token table after `create_portal_invitation` ran: unchanged when the
validation failed (the `ValueError` aborts the transaction before any
insert). -/
def portalTokensAfter (itineraries : List Itinerary) (clients : List ℕ)
    (tokens : List PortalAccessToken) (payload : PortalInvitationRequest)
    (tokenStr : String) (now day : ℤ) : List PortalAccessToken :=
  match create_portal_invitation itineraries clients tokens payload tokenStr now day with
  | .error _ => tokens
  | .ok (_, tokens') => tokens'

/-- The HTTP status the route `create_portal_invitation` in
`api/routes/portal.py` answers with: 201 on success, 400 when the crud layer
raised `ValueError`. -/
def portalInvitationHttpStatus (itineraries : List Itinerary) (clients : List ℕ)
    (tokens : List PortalAccessToken) (payload : PortalInvitationRequest)
    (tokenStr : String) (now day : ℤ) : ℕ :=
  match create_portal_invitation itineraries clients tokens payload tokenStr now day with
  | .error _ => 400
  | .ok _ => 201

/-- Embeds `crud.get_portal_token`: look a token row up by its token string. -/
def get_portal_token (tokens : List PortalAccessToken) (token : String) :
    Option PortalAccessToken :=
  tokens.find? (·.token == token)

/-- The two failure outcomes of a portal read
(`portal._get_token_or_error`): unknown token string, or expired token. -/
inductive PortalReadError where
  | notFound
  | expired
deriving DecidableEq

/-- The HTTP status of each portal read failure: 404 for `Invitation not
found`, 410 for `Invitation expired` (`portal._get_token_or_error`). -/
def portalReadHttpStatus : PortalReadError → ℕ
  | .notFound => 404
  | .expired => 410

/-- Embeds `portal._get_token_or_error`: 404 when no row matches the token
string, 410 when `expires_at < datetime.utcnow()`, else the row. -/
def get_token_or_error (tokens : List PortalAccessToken) (token : String) (now : ℤ) :
    Except PortalReadError PortalAccessToken :=
  match get_portal_token tokens token with
  | none => .error .notFound
  | some portal_token =>
    if portal_token.expires_at < now then .error .expired
    else .ok portal_token

/-- Modelled from the spec: the portal decision payload
(`schemas.PortalDecisionRequest`) read by `crud.apply_portal_decision`:
a `decision` string and optional `notes`. -/
structure PortalDecisionRequest where
  decision : String
  notes : Option String
deriving DecidableEq

/-- Embeds `crud.apply_portal_decision`: overwrite `status` with the submitted
decision, set `approved_at` to `utcnow()` exactly when the decision is
`approved` (else clear it), and store the notes. -/
def apply_portal_decision (portal_token : PortalAccessToken)
    (decision : PortalDecisionRequest) (now : ℤ) : PortalAccessToken :=
  { portal_token with
    status := decision.decision
    approved_at := if decision.decision = "approved" then some now else none
    approval_notes := decision.notes }

/-! ## Finance rollups (`utils.compute_outstanding_balance`,
`api/routes/finance.py::finance_summary`) -/

/-- A payment row (`models.Payment`).  The `status` column is modelled from
the spec: `finance.py` and `utils.py` read `payment.status` (nullable, a
missing value defaulting to `completed`) but this snapshot's `models.py` does
not declare it. -/
structure Payment where
  invoice_id : ℕ
  amount : ℚ
  status : Option String
deriving DecidableEq

/-- An invoice row (`models.Invoice`) with its owned payments. -/
structure Invoice where
  client_id : ℕ
  amount : ℚ
  payments : List Payment
deriving DecidableEq

/-- Embeds Python `sum` over a list of amounts. -/
def sumAmounts (l : List ℚ) : ℚ := l.foldl (· + ·) 0

/-- Embeds `utils.compute_outstanding_balance`: the invoice amount minus the
sum of the payments whose status — defaulted to `completed` when the payment
carries none, as `getattr(payment, "status", "completed")` does — equals
`completed`, rounded to two decimals.  The result is not clamped at zero. -/
def compute_outstanding_balance (payments : List Payment) (amount_due : ℚ) : ℚ :=
  let total_paid :=
    sumAmounts ((payments.filter (fun p => p.status.getD "completed" == "completed")).map
      (·.amount))
  quantize2 (amount_due - total_paid)

/-- Embeds the Python truthiness coalescing `(payment.status or
"completed").lower()` of `finance_summary`: `None` and the empty string fall
back to `completed`. -/
def paymentStatusOrCompleted (p : Payment) : String :=
  strLower
    (match p.status with
     | none => "completed"
     | some s => if s = "" then "completed" else s)

/-- The rollup record the `/finance/summary` route answers with. -/
structure FinanceSummary where
  total_invoiced : ℚ
  total_paid : ℚ
  total_expenses : ℚ
  outstanding : ℚ
  profitability : ℚ
deriving DecidableEq

/-- Embeds `finance_summary` of `api/routes/finance.py`.  `total_paid` is
first summed over the payments whose coalesced status is `completed`, then
immediately rebound to the unconditional sum over every payment — the second
binding is the one every later use sees.  `expenses` is the list of expense
amounts. -/
def finance_summary (invoices : List Invoice) (payments : List Payment)
    (expenses : List ℚ) : FinanceSummary :=
  let total_invoiced := sumAmounts (invoices.map (·.amount))
  let total_paid :=
    sumAmounts ((payments.filter (fun p => paymentStatusOrCompleted p == "completed")).map
      (·.amount))
  let total_paid := sumAmounts (payments.map (·.amount))
  let total_expenses := sumAmounts expenses
  let outstanding :=
    sumAmounts (invoices.map (fun inv => compute_outstanding_balance inv.payments inv.amount))
  let profitability := quantize2 (total_paid - total_expenses)
  { total_invoiced := quantize2 total_invoiced
    total_paid := quantize2 total_paid
    total_expenses := quantize2 total_expenses
    outstanding := quantize2 outstanding
    profitability := profitability }

/-! ## Itinerary duplication (`crud.duplicate_itinerary`) -/

/-- Embeds `crud.duplicate_itinerary`: build a clone row with status `draft`
and the title suffixed with ` (Copy)`, copying the scalar columns listed in
the constructor call, then copy every item (with its media links), extension
and note field by field.  `newId` is the primary key the database assigns to
the clone.  The clone is a fresh entity: no version row is inserted for it and
`apply_pricing_strategy` is not called, so the pricing columns the constructor
does not mention stay at their column defaults (`None`). -/
def duplicate_itinerary (newId : ℕ) (it : Itinerary) : Itinerary :=
  { id := newId
    client_id := it.client_id
    tour_package_id := it.tour_package_id
    title := it.title ++ " (Copy)"
    start_date := it.start_date
    end_date := it.end_date
    total_price := it.total_price
    status := "draft"
    estimate_amount := it.estimate_amount
    estimate_currency := it.estimate_currency
    brand_logo_url := it.brand_logo_url
    brand_primary_color := it.brand_primary_color
    brand_secondary_color := it.brand_secondary_color
    brand_footer_note := it.brand_footer_note
    markup_strategy := none
    target_margin := none
    calculated_margin := none
    items := it.items.map (fun item =>
      { day_number := item.day_number
        title := item.title
        description := item.description
        location := item.location
        start_time := item.start_time
        end_time := item.end_time
        category := item.category
        supplier_reference := item.supplier_reference
        estimated_cost := item.estimated_cost
        estimated_currency := item.estimated_currency
        media_links := item.media_links.map (fun link =>
          { media_asset_id := link.media_asset_id
            usage := link.usage }) })
    extensions := it.extensions.map (fun extension =>
      { title := extension.title
        description := extension.description
        additional_cost := extension.additional_cost
        currency := extension.currency })
    notes := it.notes.map (fun note =>
      { category := note.category
        title := note.title
        content := note.content })
    versions := [] }

/-! ## Concrete sample rows used by witnesses and counterexamples -/

/-- A single itinerary item costing 150.00, as in the spec's flat-markup
scenario. -/
def sampleItem150 : ItineraryItem :=
  { day_number := 1
    title := "Game Drive"
    description := none
    location := none
    start_time := none
    end_time := none
    category := "activity"
    supplier_reference := none
    estimated_cost := some 150
    estimated_currency := "USD"
    media_links := [] }

/-- The spec's flat-markup scenario: one item costing 150.00,
`markup_strategy="flat"`, `target_margin=50.00`, `total_price` unset. -/
def itineraryFlat150 : Itinerary :=
  { id := 1
    client_id := 1
    tour_package_id := none
    title := "Savannah Escape"
    start_date := 0
    end_date := 5
    total_price := none
    status := "draft"
    estimate_amount := none
    estimate_currency := "USD"
    brand_logo_url := none
    brand_primary_color := none
    brand_secondary_color := none
    brand_footer_note := none
    markup_strategy := some "flat"
    target_margin := some 50
    calculated_margin := none
    items := [sampleItem150]
    extensions := []
    notes := []
    versions := [] }

/-- The flat-markup itinerary with a manually set `total_price` of 500.00,
above its base cost of 150.00. -/
def itineraryManual500 : Itinerary :=
  { itineraryFlat150 with total_price := some 500 }

/-- A portal token expiring at instant 5. -/
def samplePortalToken : PortalAccessToken :=
  { itinerary_id := 1
    client_id := 1
    token := "tok-a"
    expires_at := 5
    status := "pending"
    approved_at := none
    approval_notes := none
    waiver_signed := false
    last_viewed_at := none }

/-- A portal token expiring at instant 100. -/
def sampleFreshToken : PortalAccessToken :=
  { samplePortalToken with token := "tok-b", expires_at := 100 }

/-! ## Rounding lemmas -/

theorem roundHalfEven_intCast (n : ℤ) : roundHalfEven (n : ℚ) = n := by
  simp [roundHalfEven]

theorem twoDec_zero : TwoDec 0 := ⟨0, by norm_num⟩

theorem twoDec_add {a b : ℚ} (ha : TwoDec a) (hb : TwoDec b) : TwoDec (a + b) := by
  obtain ⟨m, hm⟩ := ha
  obtain ⟨n, hn⟩ := hb
  exact ⟨m + n, by rw [hm, hn]; push_cast; ring⟩

theorem quantize2_eq_self {q : ℚ} (h : TwoDec q) : quantize2 q = q := by
  obtain ⟨n, hn⟩ := h
  have h100 : q * 100 = (n : ℚ) := by rw [hn]; field_simp
  rw [quantize2, h100, roundHalfEven_intCast, hn]

theorem twoDec_quantize2 (q : ℚ) : TwoDec (quantize2 q) := ⟨roundHalfEven (q * 100), rfl⟩

theorem quantize2_zero : quantize2 0 = 0 := quantize2_eq_self twoDec_zero

/-! ## Pricing-engine lemmas -/

theorem addCosts_twoDec {init : ℚ} {costs : List (Option ℚ)} (hinit : TwoDec init)
    (h : ∀ c ∈ costs, ∀ v : ℚ, c = some v → TwoDec v) : TwoDec (addCosts init costs) := by
  induction costs generalizing init with
  | nil => exact hinit
  | cons c cs ih =>
    cases c with
    | none =>
      have : addCosts init (none :: cs) = addCosts init cs := rfl
      rw [this]
      exact ih hinit fun c hc v hv => h c (List.mem_cons_of_mem _ hc) v hv
    | some v =>
      have : addCosts init (some v :: cs) = addCosts (init + v) cs := rfl
      rw [this]
      exact ih (twoDec_add hinit (h (some v) (List.mem_cons_self _ _) v rfl))
        fun c hc v hv => h c (List.mem_cons_of_mem _ hc) v hv

theorem calculate_itinerary_cost_twoDec (it : Itinerary)
    (hitems : ∀ i ∈ it.items, ∀ c : ℚ, i.estimated_cost = some c → TwoDec c)
    (hexts : ∀ e ∈ it.extensions, ∀ c : ℚ, e.additional_cost = some c → TwoDec c) :
    TwoDec (calculate_itinerary_cost it) := by
  refine addCosts_twoDec (addCosts_twoDec twoDec_zero ?_) ?_
  · intro c hc v hv
    obtain ⟨i, hi, rfl⟩ := List.mem_map.mp hc
    exact hitems i hi v hv
  · intro c hc v hv
    obtain ⟨e, he, rfl⟩ := List.mem_map.mp hc
    exact hexts e he v hv

theorem twoDec_markupValue (ms : Option String) (tm : Option ℚ) (b : ℚ) :
    TwoDec (markupValue ms tm b) := by
  unfold markupValue
  split
  · exact twoDec_quantize2 _
  · split
    · exact twoDec_quantize2 _
    · exact twoDec_zero

theorem markupValue_eq_claim (ms : Option String) (tm : Option ℚ) (b : ℚ)
    (hms : ms = none ∨ ms = some "flat" ∨ ms = some "percentage") :
    markupValue ms tm b =
      if ms = some "percentage" then quantize2 (b * tm.getD 0 / 100)
      else quantize2 (tm.getD 0) := by
  have hfl : ¬ (strLower "flat" = "percentage") := by decide
  have hpc : strLower "percentage" = "percentage" := by decide
  rcases hms with h | h | h <;> subst h
  · rw [markupValue]
    simp only [Option.getD_none, if_neg hfl, reduceCtorEq, if_false]
    by_cases ht : tm.getD 0 = 0
    · simp [ht, quantize2_zero]
    · simp [ht]
  · rw [markupValue]
    simp only [Option.getD_some, if_neg hfl, Option.some.injEq, reduceCtorEq, if_false]
    rw [if_neg (by decide : ¬ ("flat" = "percentage"))]
    by_cases ht : tm.getD 0 = 0
    · simp [ht, quantize2_zero]
    · simp [ht]
  · rw [markupValue]
    simp [Option.getD_some, hpc]

theorem apply_pricing_total_price (it : Itinerary) :
    (apply_pricing_strategy it).total_price = some (newTotalPrice it) := rfl

theorem apply_pricing_calculated_margin (it : Itinerary) :
    (apply_pricing_strategy it).calculated_margin =
      some (quantize2 (newTotalPrice it - calculate_itinerary_cost it)) := rfl

/-- Claim C1: when `total_price` is unset before recomputation, the pricing
engine sets `total_price = base_cost + markup_value` and
`calculated_margin = total_price - base_cost`, where `base_cost` sums the item
`estimated_cost` and extension `additional_cost` values (nulls treated as 0)
and `markup_value` is `base_cost * target_margin / 100` rounded to 2 decimals
under the `percentage` strategy and `target_margin` itself rounded to
2 decimals (0 when unset) otherwise.  The hypotheses state that the strategy
column holds one of its two legal values or null and that the stored amounts
are two-decimal `Numeric(10, 2)` column values. -/
theorem pricing_sets_unset_total_price (it : Itinerary)
    (hstrategy : it.markup_strategy = none ∨ it.markup_strategy = some "flat" ∨
      it.markup_strategy = some "percentage")
    (hitems : ∀ i ∈ it.items, ∀ c : ℚ, i.estimated_cost = some c → TwoDec c)
    (hexts : ∀ e ∈ it.extensions, ∀ c : ℚ, e.additional_cost = some c → TwoDec c)
    (hunset : it.total_price = none) :
    (apply_pricing_strategy it).total_price =
      some (calculate_itinerary_cost it +
        (if it.markup_strategy = some "percentage" then
          quantize2 (calculate_itinerary_cost it * it.target_margin.getD 0 / 100)
         else quantize2 (it.target_margin.getD 0))) ∧
    (apply_pricing_strategy it).calculated_margin =
      some ((calculate_itinerary_cost it +
        (if it.markup_strategy = some "percentage" then
          quantize2 (calculate_itinerary_cost it * it.target_margin.getD 0 / 100)
         else quantize2 (it.target_margin.getD 0))) - calculate_itinerary_cost it) := by
  have hB : TwoDec (calculate_itinerary_cost it) := calculate_itinerary_cost_twoDec it hitems hexts
  have hM : TwoDec (markupValue it.markup_strategy it.target_margin (calculate_itinerary_cost it)) :=
    twoDec_markupValue _ _ _
  have hMc := markupValue_eq_claim it.markup_strategy it.target_margin
    (calculate_itinerary_cost it) hstrategy
  have hnew : newTotalPrice it =
      calculate_itinerary_cost it +
        markupValue it.markup_strategy it.target_margin (calculate_itinerary_cost it) := by
    rw [newTotalPrice]
    rw [hunset]
    exact quantize2_eq_self (twoDec_add hB hM)
  constructor
  · rw [apply_pricing_total_price, hnew, hMc]
  · rw [apply_pricing_calculated_margin, hnew, hMc]
    have : calculate_itinerary_cost it +
        (if it.markup_strategy = some "percentage" then
          quantize2 (calculate_itinerary_cost it * it.target_margin.getD 0 / 100)
         else quantize2 (it.target_margin.getD 0)) - calculate_itinerary_cost it =
        (if it.markup_strategy = some "percentage" then
          quantize2 (calculate_itinerary_cost it * it.target_margin.getD 0 / 100)
         else quantize2 (it.target_margin.getD 0)) := by ring
    rw [this, quantize2_eq_self (by rw [← hMc]; exact hM)]

/-- Witness for C1, the spec's scenario: one item costing 150.00 with
`markup_strategy="flat"` and `target_margin=50.00` yields
`total_price=200.00` and `calculated_margin=50.00`. -/
theorem pricing_sets_unset_total_price_witness :
    (apply_pricing_strategy itineraryFlat150).total_price = some 200 ∧
    (apply_pricing_strategy itineraryFlat150).calculated_margin = some 50 := by
  have h := pricing_sets_unset_total_price itineraryFlat150
    (Or.inr (Or.inl rfl))
    (by
      intro i hi c hc
      have hi2 : i = sampleItem150 := by simpa [itineraryFlat150] using hi
      rw [hi2] at hc
      have hc2 : (150 : ℚ) = c := by simpa [sampleItem150] using hc
      exact ⟨15000, by rw [← hc2]; norm_num⟩)
    (by intro e he c hc; simp [itineraryFlat150] at he)
    rfl
  have hms : itineraryFlat150.markup_strategy = some "flat" := rfl
  have hneg : ¬ (itineraryFlat150.markup_strategy = some "percentage") := by
    rw [hms]; decide
  have hBval : calculate_itinerary_cost itineraryFlat150 = 150 := by
    norm_num [calculate_itinerary_cost, addCosts, itineraryFlat150, sampleItem150]
  have htm : itineraryFlat150.target_margin.getD 0 = 50 := rfl
  have hq : quantize2 (50 : ℚ) = 50 := quantize2_eq_self ⟨5000, by norm_num⟩
  constructor
  · rw [h.1, if_neg hneg, hBval, htm, hq]; norm_num
  · rw [h.2, if_neg hneg, hBval, htm, hq]; norm_num

/-- Claim C2: when `total_price` is already set and at least `base_cost`,
recomputing the pricing leaves it unchanged — the floor rule overwrites
`total_price` only when it is unset or below `base_cost`, and never lowers an
explicitly higher manually-set price. -/
theorem pricing_keeps_manual_total_price (it : Itinerary) (t : ℚ)
    (hset : it.total_price = some t)
    (hge : calculate_itinerary_cost it ≤ t) :
    (apply_pricing_strategy it).total_price = some t := by
  have hnew : newTotalPrice it = t := by
    simp only [newTotalPrice, hset]
    exact if_neg (not_lt.mpr hge)
  rw [apply_pricing_total_price, hnew]

/-- Witness for C2: a manually set `total_price` of 500.00 on an itinerary
whose base cost is 150.00 survives recomputation. -/
theorem pricing_keeps_manual_total_price_witness :
    (apply_pricing_strategy itineraryManual500).total_price = some 500 := by
  apply pricing_keeps_manual_total_price itineraryManual500 500 rfl
  norm_num [calculate_itinerary_cost, addCosts, itineraryManual500, itineraryFlat150,
    sampleItem150]

theorem calculate_itinerary_cost_apply (it : Itinerary) :
    calculate_itinerary_cost (apply_pricing_strategy it) = calculate_itinerary_cost it := rfl

theorem newTotalPrice_apply (it : Itinerary) :
    newTotalPrice (apply_pricing_strategy it) = newTotalPrice it := by
  have hunf : newTotalPrice (apply_pricing_strategy it) =
      if newTotalPrice it < calculate_itinerary_cost it then
        quantize2 (calculate_itinerary_cost it +
          markupValue it.markup_strategy it.target_margin (calculate_itinerary_cost it))
      else newTotalPrice it := rfl
  rw [hunf]
  cases htp : it.total_price with
  | none =>
    have hn : newTotalPrice it =
        quantize2 (calculate_itinerary_cost it +
          markupValue it.markup_strategy it.target_margin (calculate_itinerary_cost it)) := by
      simp only [newTotalPrice, htp]
    rw [hn]
    exact ite_self _
  | some t =>
    have hn : newTotalPrice it =
        if t < calculate_itinerary_cost it then
          quantize2 (calculate_itinerary_cost it +
            markupValue it.markup_strategy it.target_margin (calculate_itinerary_cost it))
        else t := by
      simp only [newTotalPrice, htp]
    rw [hn]
    by_cases h1 : t < calculate_itinerary_cost it
    · rw [if_pos h1]
      exact ite_self _
    · rw [if_neg h1, if_neg h1]

/-- Claim C3: the pricing recomputation is idempotent — applying it twice with
unchanged items, extensions, `markup_strategy` and `target_margin` yields the
same `total_price` and `calculated_margin` as applying it once. -/
theorem pricing_recompute_idempotent (it : Itinerary) :
    (apply_pricing_strategy (apply_pricing_strategy it)).total_price =
      (apply_pricing_strategy it).total_price ∧
    (apply_pricing_strategy (apply_pricing_strategy it)).calculated_margin =
      (apply_pricing_strategy it).calculated_margin := by
  constructor
  · rw [apply_pricing_total_price, apply_pricing_total_price, newTotalPrice_apply]
  · rw [apply_pricing_calculated_margin, apply_pricing_calculated_margin,
      calculate_itinerary_cost_apply, newTotalPrice_apply]

/-! ## Versioning lemmas -/

theorem latestVersionNumber_foldl_some (l : List ℤ) (m : ℤ) :
    l.foldl
      (fun acc v =>
        match acc with
        | none => some v
        | some m => some (max m v))
      (some m) = some (l.foldl max m) := by
  induction l generalizing m with
  | nil => rfl
  | cons a as ih => exact ih (max m a)

theorem latestVersionNumber_eq_max (vs : List ItineraryVersion) :
    latestVersionNumber vs = (vs.map (·.version_number)).max? := by
  rw [latestVersionNumber]
  cases h : vs.map (·.version_number) with
  | nil => rfl
  | cons a as =>
    rw [List.foldl_cons, latestVersionNumber_foldl_some]
    rfl

theorem latestVersionNumber_append (vs : List ItineraryVersion) (x : ItineraryVersion) :
    latestVersionNumber (vs ++ [x]) =
      match latestVersionNumber vs with
      | none => some x.version_number
      | some m => some (max m x.version_number) := by
  rw [latestVersionNumber, latestVersionNumber, List.map_append, List.foldl_append]
  cases (vs.map (·.version_number)).foldl
      (fun acc v =>
        match acc with
        | none => some v
        | some m => some (max m v))
      none with
  | none => rfl
  | some m => rfl

theorem latestVersionNumber_iterated (summaries : ℕ → String)
    (snapshots : ℕ → List (String × Option String)) (n : ℕ) :
    latestVersionNumber (iteratedVersions summaries snapshots n) =
      if n = 0 then none else some (n : ℤ) := by
  induction n with
  | zero => rfl
  | succ n ih =>
    rw [iteratedVersions, record_itinerary_version, latestVersionNumber_append, ih]
    cases hn : n with
    | zero => simp
    | succ k =>
      have : ¬ (k + 1 = 0) := Nat.succ_ne_zero k
      simp only [this, if_false, Nat.succ_ne_zero, Nat.add_eq, if_neg (Nat.succ_ne_zero (k + 1))]
      have hmax : max ((k : ℤ) + 1) (((k : ℤ) + 1) + 1) = ((k : ℤ) + 1) + 1 := by
        apply max_eq_right
        linarith
      push_cast
      rw [Option.getD_some]
      rw [show ((k : ℤ) + 1) + 1 = (k : ℤ) + 1 + 1 from rfl] at hmax
      simp [hmax]

/-- Claim C4: `record_version` assigns each new snapshot a `version_number`
equal to the maximum existing number for the itinerary plus one (1 when none
exist), so successive calls produce the strictly increasing sequence
1, 2, 3, … per itinerary. -/
theorem record_version_numbers_strictly_increasing
    (vs : List ItineraryVersion) (s : String) (snap : List (String × Option String))
    (summaries : ℕ → String) (snapshots : ℕ → List (String × Option String)) (n : ℕ) :
    record_itinerary_version vs s snap =
      vs ++ [{ version_number := ((vs.map (·.version_number)).max?).getD 0 + 1
               summary := s
               snapshot := snap }] ∧
    (iteratedVersions summaries snapshots n).map (·.version_number) =
      (List.range n).map (fun k : ℕ => (k : ℤ) + 1) ∧
    ((iteratedVersions summaries snapshots n).map (·.version_number)).Pairwise (· < ·) := by
  have hmap : ∀ m : ℕ, (iteratedVersions summaries snapshots m).map (·.version_number) =
      (List.range m).map (fun k : ℕ => (k : ℤ) + 1) := by
    intro m
    induction m with
    | zero => rfl
    | succ n ih =>
      rw [iteratedVersions, record_itinerary_version, List.map_append,
        latestVersionNumber_iterated, ih, List.range_succ, List.map_append]
      cases hn : n with
      | zero => simp
      | succ k =>
        simp only [Nat.succ_ne_zero, if_false, Option.getD_some, List.map_cons, List.map_nil]
  refine ⟨by rw [record_itinerary_version, latestVersionNumber_eq_max], hmap n, ?_⟩
  rw [hmap n]
  exact List.Pairwise.map _ (fun a b hab => by omega) (List.pairwise_lt_range n)

/-! ## Portal workflow theorems -/

/-- Claim C5 (amended): a portal token is retrievable through the portal read
endpoints while `now ≤ expires_at`; for every token whose `expires_at` is
strictly in the past the read fails with the "expired" outcome (HTTP 410),
which is distinct from the "not found" outcome (HTTP 404) returned for a
token string matching no stored token.  (The code's check is
`expires_at < utcnow()`, so a token read at the exact expiry instant is still
served.) -/
theorem portal_read_expired_vs_not_found
    (tokens : List PortalAccessToken) (tokA tokB tokC : String) (now : ℤ)
    (ptA ptC : PortalAccessToken)
    (hA : get_portal_token tokens tokA = some ptA)
    (hexp : ptA.expires_at < now)
    (hB : get_portal_token tokens tokB = none)
    (hC : get_portal_token tokens tokC = some ptC)
    (hfresh : now ≤ ptC.expires_at) :
    get_token_or_error tokens tokA now = .error .expired ∧
    get_token_or_error tokens tokB now = .error .notFound ∧
    get_token_or_error tokens tokC now = .ok ptC ∧
    portalReadHttpStatus .expired = 410 ∧
    portalReadHttpStatus .notFound = 404 ∧
    PortalReadError.expired ≠ PortalReadError.notFound := by
  refine ⟨?_, ?_, ?_, rfl, rfl, by decide⟩
  · simp only [get_token_or_error, hA]
    rw [if_pos hexp]
  · simp only [get_token_or_error, hB]
  · simp only [get_token_or_error, hC]
    rw [if_neg (not_lt.mpr hfresh)]

/-- Witness for C5: with a token expired at instant 5 and a token fresh until
instant 100, reads at instant 50 distinguish the three outcomes. -/
theorem portal_read_expired_vs_not_found_witness :
    get_token_or_error [samplePortalToken, sampleFreshToken] "tok-a" 50 =
      .error .expired ∧
    get_token_or_error [samplePortalToken, sampleFreshToken] "zzz" 50 =
      .error .notFound ∧
    get_token_or_error [samplePortalToken, sampleFreshToken] "tok-b" 50 =
      .ok sampleFreshToken ∧
    portalReadHttpStatus .expired = 410 ∧
    portalReadHttpStatus .notFound = 404 ∧
    PortalReadError.expired ≠ PortalReadError.notFound :=
  portal_read_expired_vs_not_found [samplePortalToken, sampleFreshToken]
    "tok-a" "zzz" "tok-b" 50 samplePortalToken sampleFreshToken
    (by decide) (by decide) (by decide) (by decide) (by decide)

/-- Counterexample to C5 as stated: the claim says a token is retrievable
only while `now < expires_at`, but a read at the exact expiry instant
(`now = expires_at = 5`) succeeds, because the code only rejects
`expires_at < now`. -/
theorem portal_read_at_expiry_instant_counterexample :
    get_token_or_error [samplePortalToken] "tok-a" 5 = .ok samplePortalToken ∧
    ¬ ((5 : ℤ) < samplePortalToken.expires_at) := by
  constructor
  · rfl
  · decide

/-- Claim C7: creating a portal invitation succeeds exactly when the
referenced itinerary exists, the referenced client exists, and the supplied
client is the itinerary's own client; otherwise the crud layer raises the
validation error, the route answers 400, and the token table is left
unchanged (no token row is created). -/
theorem portal_invitation_validation
    (itineraries : List Itinerary) (clients : List ℕ) (tokens : List PortalAccessToken)
    (payload : PortalInvitationRequest) (tokenStr : String) (now day : ℤ) :
    ((create_portal_invitation itineraries clients tokens payload tokenStr now day).isOk = true ↔
      ∃ itinerary, get_itinerary itineraries payload.itinerary_id = some itinerary ∧
        payload.client_id ∈ clients ∧ itinerary.client_id = payload.client_id) ∧
    portalTokensAfter itineraries clients tokens payload tokenStr now day =
      (if (create_portal_invitation itineraries clients tokens payload tokenStr now day).isOk
       then tokens ++
         [{ itinerary_id := payload.itinerary_id
            client_id := payload.client_id
            token := tokenStr
            expires_at := now + payload.expires_in_days * day
            status := "pending"
            approved_at := none
            approval_notes := none
            waiver_signed := false
            last_viewed_at := none }]
       else tokens) ∧
    portalInvitationHttpStatus itineraries clients tokens payload tokenStr now day =
      (if (create_portal_invitation itineraries clients tokens payload tokenStr now day).isOk
       then 201 else 400) := by
  cases hit : get_itinerary itineraries payload.itinerary_id with
  | none =>
    simp [create_portal_invitation, portalTokensAfter, portalInvitationHttpStatus, hit,
      Except.isOk, Except.toBool]
  | some itinerary =>
    by_cases hmem : payload.client_id ∈ clients
    · by_cases hcl : itinerary.client_id = payload.client_id
      · simp [create_portal_invitation, portalTokensAfter, portalInvitationHttpStatus, hit,
          hmem, hcl, Except.isOk, Except.toBool]
      · simp only [create_portal_invitation, portalTokensAfter, portalInvitationHttpStatus,
          hit, hmem, not_true_eq_false, if_false, hcl, ne_eq, not_false_eq_true, if_true]
        refine ⟨iff_of_false (by simp [Except.isOk, Except.toBool]) ?_, rfl, rfl⟩
        rintro ⟨it2, hit2, hmem2, hcl2⟩
        injection hit2 with h2
        rw [← h2] at hcl2
        exact hcl hcl2
    · simp only [create_portal_invitation, portalTokensAfter, portalInvitationHttpStatus,
        hit, hmem, not_false_eq_true, if_true]
      refine ⟨iff_of_false (by simp [Except.isOk, Except.toBool]) ?_, rfl, rfl⟩
      rintro ⟨it2, hit2, hmem2, hcl2⟩
      exact hmem2.elim

/-- Claim C8: applying a portal decision overwrites `status` with the
submitted decision; an `approved` decision stamps `approved_at` with the
current time, a `declined` decision clears it, and a re-submission overwrites
the previous status and timestamp. -/
theorem portal_decision_overwrites_status (pt : PortalAccessToken)
    (notes n1 n2 : Option String) (now t1 t2 : ℤ) (d1 d2 : String) :
    (apply_portal_decision pt ⟨"approved", notes⟩ now).status = "approved" ∧
    (apply_portal_decision pt ⟨"approved", notes⟩ now).approved_at = some now ∧
    (apply_portal_decision pt ⟨"declined", notes⟩ now).status = "declined" ∧
    (apply_portal_decision pt ⟨"declined", notes⟩ now).approved_at = none ∧
    (apply_portal_decision (apply_portal_decision pt ⟨d1, n1⟩ t1) ⟨d2, n2⟩ t2).status = d2 ∧
    (apply_portal_decision (apply_portal_decision pt ⟨d1, n1⟩ t1) ⟨d2, n2⟩ t2).approved_at =
      (if d2 = "approved" then some t2 else none) := by
  refine ⟨rfl, ?_, rfl, ?_, rfl, rfl⟩
  · show (if ("approved" : String) = "approved" then some now else none) = some now
    rw [if_pos rfl]
  · show (if ("declined" : String) = "approved" then some now else none) = none
    rw [if_neg (by decide)]

/-! ## Finance rollup theorems -/

theorem compute_outstanding_pending_cons (ps : List Payment) (amt : ℚ) (p : Payment)
    (hp : p.status = some "pending") :
    compute_outstanding_balance (p :: ps) amt = compute_outstanding_balance ps amt := by
  simp [compute_outstanding_balance, List.filter_cons, hp]

/-- Claim C6: `outstanding(invoice)` equals the invoice amount minus the sum
of its payments counted as completed (a payment carrying no status counts as
completed), rounded to 2 decimals and not clamped below zero; an invoice of
1500.00 with one completed payment of 500.00 has outstanding 1000.00, a
further payment of 300.00 with status `pending` does not change it, and an
overpaid invoice goes negative. -/
theorem outstanding_balance_spec (ps : List Payment) (amt : ℚ) (p : Payment)
    (hp : p.status = some "pending") :
    compute_outstanding_balance (p :: ps) amt = compute_outstanding_balance ps amt ∧
    compute_outstanding_balance [⟨1, 500, none⟩] 1500 = 1000 ∧
    compute_outstanding_balance [⟨1, 500, none⟩, ⟨1, 300, some "pending"⟩] 1500 = 1000 ∧
    compute_outstanding_balance [⟨1, 2000, some "completed"⟩] 1500 = -500 := by
  refine ⟨compute_outstanding_pending_cons ps amt p hp, ?_, ?_, ?_⟩
  · show quantize2 ((1500 : ℚ) - (0 + 500)) = 1000
    rw [show (1500 : ℚ) - (0 + 500) = 1000 by norm_num]
    exact quantize2_eq_self ⟨100000, by norm_num⟩
  · show quantize2 ((1500 : ℚ) - (0 + 500)) = 1000
    rw [show (1500 : ℚ) - (0 + 500) = 1000 by norm_num]
    exact quantize2_eq_self ⟨100000, by norm_num⟩
  · show quantize2 ((1500 : ℚ) - (0 + 2000)) = -500
    rw [show (1500 : ℚ) - (0 + 2000) = -500 by norm_num]
    exact quantize2_eq_self ⟨-50000, by norm_num⟩

/-- Witness for C6 at the spec's numbers: invoice amount 1500.00, one
completed payment of 500.00, one pending payment of 300.00. -/
theorem outstanding_balance_spec_witness :
    compute_outstanding_balance [⟨1, 300, some "pending"⟩, ⟨1, 500, none⟩] 1500 =
      compute_outstanding_balance [⟨1, 500, none⟩] 1500 ∧
    compute_outstanding_balance [⟨1, 500, none⟩] 1500 = 1000 ∧
    compute_outstanding_balance [⟨1, 500, none⟩, ⟨1, 300, some "pending"⟩] 1500 = 1000 ∧
    compute_outstanding_balance [⟨1, 2000, some "completed"⟩] 1500 = -500 :=
  outstanding_balance_spec [⟨1, 500, none⟩] 1500 ⟨1, 300, some "pending"⟩ rfl

theorem finance_summary_outstanding_def (invoices : List Invoice) (payments : List Payment)
    (expenses : List ℚ) :
    (finance_summary invoices payments expenses).outstanding =
      quantize2 (sumAmounts (invoices.map
        (fun inv => compute_outstanding_balance inv.payments inv.amount))) := rfl

/-- Claim C9: in the finance summary, `total_paid` and `profitability` range
over every payment regardless of status — the completed-only sum is
immediately rebound to an unconditional sum — so a payment with status
`pending` raises `total_paid` and `profitability`, even though the
per-invoice `outstanding` figure in the same response excludes it. -/
theorem finance_summary_total_paid_ignores_status
    (invoices : List Invoice) (payments : List Payment) (expenses : List ℚ)
    (p : Payment) (cid : ℕ) (amt : ℚ) (pays : List Payment)
    (hp : p.status = some "pending") :
    (finance_summary invoices payments expenses).total_paid =
      quantize2 (sumAmounts (payments.map (·.amount))) ∧
    (finance_summary invoices (p :: payments) expenses).total_paid =
      quantize2 (sumAmounts ((p :: payments).map (·.amount))) ∧
    (finance_summary invoices payments expenses).profitability =
      quantize2 (sumAmounts (payments.map (·.amount)) - sumAmounts expenses) ∧
    (finance_summary (⟨cid, amt, p :: pays⟩ :: invoices) payments expenses).outstanding =
      (finance_summary (⟨cid, amt, pays⟩ :: invoices) payments expenses).outstanding := by
  refine ⟨rfl, rfl, rfl, ?_⟩
  rw [finance_summary_outstanding_def, finance_summary_outstanding_def]
  simp only [List.map_cons]
  rw [compute_outstanding_pending_cons pays amt p hp]

/-- Witness for C9: one invoice of 1500.00 holding a completed payment of
500.00, payment table with that payment, expenses of 300.00, and a pending
payment of 300.00 joining both the payment table and the invoice. -/
theorem finance_summary_total_paid_ignores_status_witness :
    (finance_summary [] [⟨1, 500, none⟩] [300]).total_paid =
      quantize2 (sumAmounts ([(⟨1, 500, none⟩ : Payment)].map (·.amount))) ∧
    (finance_summary [] (⟨1, 300, some "pending"⟩ :: [⟨1, 500, none⟩]) [300]).total_paid =
      quantize2 (sumAmounts (((⟨1, 300, some "pending"⟩ : Payment) ::
        [⟨1, 500, none⟩]).map (·.amount))) ∧
    (finance_summary [] [⟨1, 500, none⟩] [300]).profitability =
      quantize2 (sumAmounts ([(⟨1, 500, none⟩ : Payment)].map (·.amount)) - sumAmounts [300]) ∧
    (finance_summary [⟨1, 1500, ⟨1, 300, some "pending"⟩ :: [⟨1, 500, none⟩]⟩]
        [⟨1, 500, none⟩] [300]).outstanding =
      (finance_summary [⟨1, 1500, [⟨1, 500, none⟩]⟩] [⟨1, 500, none⟩] [300]).outstanding :=
  finance_summary_total_paid_ignores_status [] [⟨1, 500, none⟩]
    [300] ⟨1, 300, some "pending"⟩ 1 1500 [⟨1, 500, none⟩] rfl

/-! ## Duplication theorem -/

theorem mediaLinks_map_eta (ls : List ItineraryItemMedia) :
    ls.map (fun link =>
      ({ media_asset_id := link.media_asset_id
         usage := link.usage } : ItineraryItemMedia)) = ls := by
  induction ls with
  | nil => rfl
  | cons a as ih => rw [List.map_cons, ih]

/-- Claim C10: duplicating an itinerary yields a clone with status `draft`
and the original title suffixed with ` (Copy)`, copying `total_price`,
`estimate_amount`, items, extensions and notes verbatim; the clone has no
version snapshot, and the pricing engine is not rerun on it — its
`calculated_margin` stays at the column default `None`, which a pricing run
would always overwrite. -/
theorem duplicate_itinerary_spec (it : Itinerary) (newId : ℕ) :
    (duplicate_itinerary newId it).status = "draft" ∧
    (duplicate_itinerary newId it).title = it.title ++ " (Copy)" ∧
    (duplicate_itinerary newId it).total_price = it.total_price ∧
    (duplicate_itinerary newId it).estimate_amount = it.estimate_amount ∧
    (duplicate_itinerary newId it).items = it.items ∧
    (duplicate_itinerary newId it).extensions = it.extensions ∧
    (duplicate_itinerary newId it).notes = it.notes ∧
    (duplicate_itinerary newId it).versions = [] ∧
    (duplicate_itinerary newId it).calculated_margin = none ∧
    (apply_pricing_strategy (duplicate_itinerary newId it)).calculated_margin ≠
      (duplicate_itinerary newId it).calculated_margin := by
  refine ⟨rfl, rfl, rfl, rfl, ?_, ?_, ?_, rfl, rfl, ?_⟩
  · show it.items.map _ = it.items
    induction it.items with
    | nil => rfl
    | cons a as ih =>
      rw [List.map_cons, ih, mediaLinks_map_eta]
  · exact List.map_id it.extensions
  · exact List.map_id it.notes
  · exact fun h => Option.noConfusion h
